import Mathlib

/-!
Verification development for the task-manager application (Express + Mongoose
REST API with a React frontend).

Server side, the embedding models:
* the Mongoose task schema (`models/task.js`): field types, the `trim` setters,
  the `required` check on `title`, the `enum` check on `priority`, and the
  default values (`description` defaults to the string "default value",
  `completed` to `false`, `priority` to `"medium"`), with `timestamps: true`
  modelled by explicit `createdAt`/`updatedAt` fields;
* the five route handlers of `routes/tasks.js`, each as a pure function from
  the database state (a list of tasks) and the request to a response envelope
  and the new database state.  MongoDB document ids are modelled as strings;
  an id that does not cast to an `ObjectId` makes `findById` &c. throw, which
  the handlers catch and turn into a 400 response, so the model guards the
  handler body with `isValidObjectId`.

Client side, the embedding models:
* the list filtering/sorting of `TaskList.jsx` (`filteredAndSortedTasks`);
  `Array.prototype.sort` is stable per the ECMAScript specification, so each
  comparator is modelled by running the stable `List.insertionSort` on the
  relation "sorts before or ties" of that comparator;
* the statistics of `TaskStats.jsx` (`completionPercentage` &c.), with
  `Math.round` modelled on the rationals as floor(x + 1/2);
* the form logic of `TaskForm.jsx` (`validateForm`, `handleSubmit`) composed
  with the `App.js` container handlers (`handleCreateTask`,
  `handleUpdateTask`), which catch API errors without rethrowing;
* the axios response interceptor of `taskService.js`
  (`response.data.data || response.data`) over a small model of JavaScript
  values and truthiness.
-/

namespace TaskApp

/-- Priority enum of the task schema: `enum: ['low', 'medium', 'high']`. -/
inductive Priority where
  | low
  | medium
  | high
deriving DecidableEq, Repr

/-- Numeric rank of a priority, as in `TaskList.jsx`:
`const priorityOrder = { high: 3, medium: 2, low: 1 }`. -/
def pVal : Priority → Nat
  | .high => 3
  | .medium => 2
  | .low => 1

/-- Parse the raw priority string of a request body against the schema enum
`['low', 'medium', 'high']`; any other string is a validation error. -/
def parsePriority (s : String) : Option Priority :=
  if s = "low" then some .low
  else if s = "medium" then some .medium
  else if s = "high" then some .high
  else none

/-- JavaScript `String.prototype.trim` (also the Mongoose `trim` setter):
strip leading and trailing whitespace.  Defined over the character list so
that it evaluates by kernel reduction. -/
def jsTrim (s : String) : String :=
  String.mk (((s.data.dropWhile Char.isWhitespace).reverse.dropWhile Char.isWhitespace).reverse)

/-- A stored task document: the schema fields of `models/task.js` plus the
`_id` assigned by MongoDB and the `createdAt`/`updatedAt` timestamps added by
`timestamps: true`. -/
structure Task where
  id : String
  title : String
  description : String
  completed : Bool
  priority : Priority
  createdAt : Nat
  updatedAt : Nat
deriving DecidableEq, Repr

/-- A request body for POST or PUT: any subset of the writable schema fields,
with the raw `priority` still a string to be checked against the enum. -/
structure TaskBody where
  title : Option String := none
  description : Option String := none
  completed : Option Bool := none
  priority : Option String := none
deriving DecidableEq, Repr

/-- Mongoose `trim` setter followed by the `required` validator on `title`:
the value must be present and be a nonempty string after trimming. -/
def checkRequiredTitle : Option String → Option String
  | none => none
  | some s => if jsTrim s = "" then none else some (jsTrim s)

/-- The validated document built by `Task.create(req.body)`: `none` on a
validation error, otherwise the stored task with schema defaults applied
(`description` defaults to "default value", `completed` to `false`,
`priority` to `"medium"`) and both timestamps set to the creation time. -/
def applyCreate (b : TaskBody) (id : String) (now : Nat) : Option Task :=
  match checkRequiredTitle b.title, b.priority.elim (some Priority.medium) parsePriority with
  | some t, some pr =>
      some { id := id
             title := t
             description := (b.description.map jsTrim).getD "default value"
             completed := b.completed.getD false
             priority := pr
             createdAt := now
             updatedAt := now }
  | _, _ => none

/-- The merged document validated by `findByIdAndUpdate(..., { runValidators:
true })`: each provided field is set (through the `trim` setters and the
`required`/`enum` validators), absent fields keep their stored value, and
`updatedAt` is refreshed. -/
def applyUpdate (t : Task) (b : TaskBody) (now : Nat) : Option Task :=
  match b.title.elim (some t.title) (fun s => if jsTrim s = "" then none else some (jsTrim s)),
        b.priority.elim (some t.priority) parsePriority with
  | some title, some pr =>
      some { t with
             title := title
             description := (b.description.map jsTrim).getD t.description
             completed := b.completed.getD t.completed
             priority := pr
             updatedAt := now }
  | _, _ => none

/-- Response envelope of the single-task endpoints: HTTP status plus the JSON
body fields `success`, `message` (absent on a bare success) and `data`. -/
structure TaskResponse where
  status : Nat
  success : Bool
  message : Option String
  data : Option Task
deriving DecidableEq, Repr

/-- Response envelope of `GET /api/tasks`: `{ success, count, data }`. -/
structure ListResponse where
  status : Nat
  success : Bool
  count : Nat
  data : List Task
deriving DecidableEq, Repr

/-- Hexadecimal digit test used by the `ObjectId` cast check. -/
def isHexChar (c : Char) : Bool :=
  c.isDigit || (c ≥ 'a' && c ≤ 'f') || (c ≥ 'A' && c ≤ 'F')

/-- Mongoose casts the `:id` route parameter to an `ObjectId` and throws a
`CastError` (caught by the handlers as a 400) when the string is neither a
24-character hex string nor a 12-character string. -/
def isValidObjectId (s : String) : Bool :=
  (s.length = 24 && s.data.all isHexChar) || s.length = 12

/-- Look a task up by id, as `findById` / the id part of `findByIdAndUpdate`
and `findByIdAndDelete`: ids are unique, so the first match is the document. -/
def findTask (db : List Task) (id : String) : Option Task :=
  db.find? fun t => t.id = id

/-- Tasks sort "newest first": `a` comes before (or ties) `b` when
`b.createdAt ≤ a.createdAt`.  This is both the Mongo sort
`.sort({ createdAt: -1 })` of the list route and the `newest` comparator of
`TaskList.jsx`. -/
def newestFirst (a b : Task) : Prop := b.createdAt ≤ a.createdAt

instance : DecidableRel newestFirst :=
  fun a b => inferInstanceAs (Decidable (b.createdAt ≤ a.createdAt))

instance : IsTotal Task newestFirst :=
  ⟨fun a b => Nat.le_total b.createdAt a.createdAt⟩

instance : IsTrans Task newestFirst :=
  ⟨fun _ _ _ hab hbc => Nat.le_trans hbc hab⟩

/-- Handler of `GET /api/tasks`: `Task.find({}).sort({ createdAt: -1 })`, then
`200 { success: true, count: tasks.length, data: tasks }`. -/
def listHandler (db : List Task) : ListResponse :=
  let tasks := db.insertionSort newestFirst
  { status := 200, success := true, count := tasks.length, data := tasks }

/-- Handler of `GET /api/tasks/:id`: 400 `Invalid task ID` when the id does
not cast, 404 `Task not found` when no document matches, otherwise 200 with
the document. -/
def getByIdHandler (db : List Task) (id : String) : TaskResponse :=
  if isValidObjectId id then
    match findTask db id with
    | none => { status := 404, success := false, message := some "Task not found", data := none }
    | some t => { status := 200, success := true, message := none, data := some t }
  else { status := 400, success := false, message := some "Invalid task ID", data := none }

/-- Handler of `POST /api/tasks`: `Task.create(req.body)`; a validation error
is caught as 400 `Error creating task` and nothing is persisted, otherwise
201 with the stored document appended to the collection. -/
def postHandler (db : List Task) (b : TaskBody) (id : String) (now : Nat) :
    TaskResponse × List Task :=
  match applyCreate b id now with
  | none =>
      ({ status := 400, success := false, message := some "Error creating task", data := none }, db)
  | some t =>
      ({ status := 201, success := true, message := some "Task created successfully", data := some t },
       db ++ [t])

/-- Mongoose update validation as run by `findByIdAndUpdate(...,
{ runValidators: true })`: the update paths are cast through the setters and
validated BEFORE the findAndModify command executes, without access to any
stored document.  A `title` in the body must still be nonempty after the
`trim` setter (`required`), and a `priority` in the body must be in the enum;
absent paths are not validated. -/
def validateUpdateBody (b : TaskBody) : Bool :=
  (b.title.elim true fun s => !(jsTrim s = "")) &&
  (b.priority.elim true fun s => (parsePriority s).isSome)

/-- Handler of `PUT /api/tasks/:id`: a non-casting id or a validation error on
the update body is caught as 400 `Error updating task` — both the `ObjectId`
cast and the update validators run before the query executes, so they fire
whether or not the id matches a document; after that, a missing document is
404 `Task not found`; otherwise 200 with the updated document replacing the
stored one. -/
def putHandler (db : List Task) (id : String) (b : TaskBody) (now : Nat) :
    TaskResponse × List Task :=
  if isValidObjectId id && validateUpdateBody b then
    match findTask db id with
    | none =>
        ({ status := 404, success := false, message := some "Task not found", data := none }, db)
    | some t =>
        match applyUpdate t b now with
        | none =>
            ({ status := 400, success := false, message := some "Error updating task", data := none },
             db)
        | some t2 =>
            ({ status := 200, success := true, message := some "Task updated successfully",
               data := some t2 },
             db.map fun x => if x.id = id then t2 else x)
  else ({ status := 400, success := false, message := some "Error updating task", data := none }, db)

/-- Handler of `DELETE /api/tasks/:id`: a non-casting id is caught as 400
`Error deleting task`; a missing document is 404 `Task not found`; otherwise
200 with the removed document's snapshot and the document erased. -/
def deleteHandler (db : List Task) (id : String) : TaskResponse × List Task :=
  if isValidObjectId id then
    match findTask db id with
    | none =>
        ({ status := 404, success := false, message := some "Task not found", data := none }, db)
    | some t =>
        ({ status := 200, success := true, message := some "Task deleted successfully",
           data := some t },
         db.eraseP fun x => x.id = id)
  else ({ status := 400, success := false, message := some "Error deleting task", data := none }, db)

/-! ### TaskList.jsx: client-side filtering and sorting -/

/-- The filter dropdown values of `TaskList.jsx`. -/
inductive FilterOpt where
  | all
  | active
  | completed
deriving DecidableEq, Repr

/-- The sort dropdown values of `TaskList.jsx`. -/
inductive SortOpt where
  | newest
  | oldest
  | priority
  | alphabetical
deriving DecidableEq, Repr

/-- The filter predicate switch of `filteredAndSortedTasks`: `active` keeps
`!task.completed`, `completed` keeps `task.completed`, `all` keeps
everything. -/
def filterPred (f : FilterOpt) (t : Task) : Bool :=
  match f with
  | .active => !t.completed
  | .completed => t.completed
  | .all => true

/-- The filter stage of `filteredAndSortedTasks`. -/
def filterTasks (f : FilterOpt) (tasks : List Task) : List Task :=
  tasks.filter (filterPred f)

/-- The `oldest` comparator `new Date(a.createdAt) - new Date(b.createdAt)`:
`a` sorts before or ties `b` when `a.createdAt ≤ b.createdAt`. -/
def oldestFirst (a b : Task) : Prop := a.createdAt ≤ b.createdAt

instance : DecidableRel oldestFirst :=
  fun a b => inferInstanceAs (Decidable (a.createdAt ≤ b.createdAt))

/-- The `priority` comparator
`priorityOrder[b.priority] - priorityOrder[a.priority]`: `a` sorts before or
ties `b` when `pVal b.priority ≤ pVal a.priority` (high > medium > low). -/
def priorityFirst (a b : Task) : Prop := pVal b.priority ≤ pVal a.priority

instance : DecidableRel priorityFirst :=
  fun a b => inferInstanceAs (Decidable (pVal b.priority ≤ pVal a.priority))

instance : IsTotal Task priorityFirst :=
  ⟨fun a b => Nat.le_total (pVal b.priority) (pVal a.priority)⟩

instance : IsTrans Task priorityFirst :=
  ⟨fun _ _ _ hab hbc => Nat.le_trans hbc hab⟩

/-- The `alphabetical` comparator
`a.title.toLowerCase().localeCompare(b.title.toLowerCase())`, modelled as the
lexicographic order on the lower-cased titles. -/
def alphabetical (a b : Task) : Prop := a.title.toLower ≤ b.title.toLower

instance : DecidableRel alphabetical :=
  fun a b => inferInstanceAs (Decidable (a.title.toLower ≤ b.title.toLower))

/-- The `filteredAndSortedTasks` memo of `TaskList.jsx`: filter by the filter
dropdown, then sort the copy with the selected comparator.
`Array.prototype.sort` is stable per the ECMAScript specification, so each
branch is the stable `List.insertionSort` on that comparator's
"sorts before or ties" relation. -/
def filteredAndSortedTasks (f : FilterOpt) (s : SortOpt) (tasks : List Task) : List Task :=
  let filtered := filterTasks f tasks
  match s with
  | .oldest => filtered.insertionSort oldestFirst
  | .priority => filtered.insertionSort priorityFirst
  | .alphabetical => filtered.insertionSort alphabetical
  | .newest => filtered.insertionSort newestFirst

/-! ### TaskStats.jsx: statistics -/

/-- Statistic `totalTasks = tasks.length`. -/
def totalTasks (tasks : List Task) : Nat := tasks.length

/-- Statistic `completedTasks = tasks.filter(task => task.completed).length`. -/
def completedTasks (tasks : List Task) : Nat :=
  (tasks.filter fun t => t.completed).length

/-- JavaScript `Math.round` on the rationals: floor(x + 1/2), rounding
half-up. -/
def jsRound (q : ℚ) : ℤ := Int.floor (q + 1 / 2)

/-- Statistic
`completionPercentage = totalTasks === 0 ? 0 : Math.round((completedTasks / totalTasks) * 100)`. -/
def completionPercentage (tasks : List Task) : ℤ :=
  if totalTasks tasks = 0 then 0
  else jsRound ((completedTasks tasks : ℚ) / (totalTasks tasks : ℚ) * 100)

/-! ### TaskForm.jsx and App.js: form validation and submission -/

/-- The `formData` state of `TaskForm.jsx`. -/
structure FormData where
  title : String
  description : String
  priority : Priority
deriving DecidableEq, Repr

/-- The empty initial form state `{ title: '', description: '', priority: 'medium' }`. -/
def emptyForm : FormData :=
  { title := "", description := "", priority := .medium }

/-- The `newErrors.title` computation of `validateForm`. -/
def titleError (fd : FormData) : Option String :=
  if jsTrim fd.title = "" then some "Task title is required"
  else if (jsTrim fd.title).length < 3 then some "Title must be at least 3 characters long"
  else if (jsTrim fd.title).length > 100 then some "Title must be less than 100 characters"
  else none

/-- The `newErrors.description` computation of `validateForm`. -/
def descriptionError (fd : FormData) : Option String :=
  if fd.description.length > 250 then some "Description must be less than 250 characters"
  else none

/-- The `validateForm` function of `TaskForm.jsx`: true when `newErrors` has
no keys. -/
def validateForm (fd : FormData) : Bool :=
  (titleError fd).isNone && (descriptionError fd).isNone

/-- The `dataToSubmit` preparation of `handleSubmit`: trim title and
description, keep the priority. -/
def trimForm (fd : FormData) : FormData :=
  { title := jsTrim fd.title, description := jsTrim fd.description, priority := fd.priority }

/-- Which container action a submission invoked, with the payload it was
given: `App.js` wires `onSubmit` to `handleUpdateTask` when editing and to
`handleCreateTask` otherwise. -/
inductive SubmitAction where
  | createCalled (d : FormData)
  | updateCalled (d : FormData)
deriving DecidableEq, Repr

/-- Observable outcome of one `handleSubmit` run: the container action that
was invoked (none when validation blocked the submit) and the form state
afterwards. -/
structure SubmitOutcome where
  action : Option SubmitAction
  formAfter : FormData
deriving DecidableEq, Repr

/-- The `handleSubmit` function of `TaskForm.jsx`: return early when
`validateForm` fails; otherwise trim the fields, await `onSubmit`, and—when
the awaited promise did not reject and the form is not editing—reset the form
to its empty initial state.  When the promise rejects, the `catch` block runs
and the form content is left in place. -/
def handleSubmitForm (fd : FormData) (isEditing : Bool) (onSubmitRejects : Bool) : SubmitOutcome :=
  if validateForm fd then
    let d := trimForm fd
    let a := if isEditing then SubmitAction.updateCalled d else SubmitAction.createCalled d
    if onSubmitRejects then { action := some a, formAfter := fd }
    else { action := some a, formAfter := if isEditing then fd else emptyForm }
  else { action := none, formAfter := fd }

/-- Whether the promise returned by `handleCreateTask` of `App.js` rejects,
as a function of whether the underlying create API call succeeded: its
`try`/`catch` swallows every API error (it only calls `setError`), so the
promise never rejects. -/
def handleCreateTaskRejects (apiOk : Bool) : Bool := false

/-- Whether the promise returned by `handleUpdateTask` of `App.js` rejects:
like `handleCreateTask`, its `catch` swallows every API error. -/
def handleUpdateTaskRejects (apiOk : Bool) : Bool := false

/-- A form submission as composed in `App.js`: `onSubmit` is
`handleUpdateTask` when editing and `handleCreateTask` otherwise, and `apiOk`
says whether the underlying API call succeeded. -/
def handleSubmitApp (fd : FormData) (isEditing : Bool) (apiOk : Bool) : SubmitOutcome :=
  handleSubmitForm fd isEditing
    (if isEditing then handleUpdateTaskRejects apiOk else handleCreateTaskRejects apiOk)

/-! ### taskService.js: the axios response interceptor -/

/-- A small model of JavaScript values, enough for JSON response bodies. -/
inductive JSVal where
  | jsUndefined
  | jsNull
  | jsBool (b : Bool)
  | jsNum (n : Int)
  | jsStr (s : String)
  | jsObj (fields : List (String × JSVal))

/-- JavaScript truthiness: `undefined`, `null`, `false`, `0` and `""` are
falsy; every object is truthy. -/
def truthy : JSVal → Bool
  | .jsUndefined => false
  | .jsNull => false
  | .jsBool b => b
  | .jsNum n => decide (n ≠ 0)
  | .jsStr s => decide (s ≠ "")
  | .jsObj _ => true

/-- JavaScript property access on a parsed JSON value: reading an absent
property (or a property of a non-object) yields `undefined`. -/
def getProp (v : JSVal) (k : String) : JSVal :=
  match v with
  | .jsObj fields => (List.lookup k fields).getD .jsUndefined
  | _ => .jsUndefined

/-- The success branch of the axios response interceptor in `taskService.js`:
`return response.data.data || response.data`, where `response.data` is the
parsed response body. -/
def responseData (body : JSVal) : JSVal :=
  if truthy (getProp body "data") then getProp body "data" else body

/-! ### Concrete sample data used by the witnesses -/

/-- A sample stored task, as created from `POST { title: "Buy milk" }`. -/
def demoTask : Task :=
  { id := "aaaaaaaaaaaa", title := "Buy milk", description := "default value",
    completed := false, priority := .medium, createdAt := 0, updatedAt := 0 }

/-- A sample completed task. -/
def demoDone : Task :=
  { id := "bbbbbbbbbbbb", title := "Call mom", description := "default value",
    completed := true, priority := .high, createdAt := 1, updatedAt := 2 }

/-- A third sample task. -/
def demoLow : Task :=
  { id := "cccccccccccc", title := "Water plants", description := "",
    completed := false, priority := .low, createdAt := 2, updatedAt := 2 }

/-- Three sample tasks of which exactly one is completed. -/
def demoTasks3 : List Task := [demoTask, demoDone, demoLow]

/-! ### Theorems -/

/-- C2: for every state of the task collection, `GET /api/tasks` responds 200
with `success: true`, `count` equal to the number of tasks returned, and
`data` a permutation of the whole collection (no filtering, no pagination)
ordered by `createdAt` descending, regardless of insertion order. -/
theorem list_returns_all_sorted_desc (db : List Task) :
    (listHandler db).status = 200 ∧
    (listHandler db).success = true ∧
    (listHandler db).count = (listHandler db).data.length ∧
    List.Perm (listHandler db).data db ∧
    List.Pairwise (fun a b => b.createdAt ≤ a.createdAt) (listHandler db).data :=
  ⟨rfl, rfl, rfl, List.perm_insertionSort newestFirst db,
    List.sorted_insertionSort newestFirst db⟩

/-- C3 counterexample: the claim says every `PUT /api/tasks/:id` on a
well-formed id matching no task responds 404, but `findByIdAndUpdate` with
`runValidators: true` casts and validates the update body before the query
executes, so a validation-failing body — here `{ priority: "bogus" }` — is
rejected with 400 `Error updating task` even though the well-formed id
`"ffffffffffffffffffffffff"` matches no task (the collection is still left
unchanged). -/
theorem put_invalid_body_missing_id_returns_400 :
    isValidObjectId "ffffffffffffffffffffffff" = true ∧
    findTask [] "ffffffffffffffffffffffff" = none ∧
    putHandler [] "ffffffffffffffffffffffff" { priority := some "bogus" } 0 =
      ({ status := 400, success := false, message := some "Error updating task", data := none },
       []) := by
  decide

/-- C3 as amended: a `PUT /api/tasks/:id` whose body passes the schema's
update validation, and any `DELETE /api/tasks/:id`, respond 404
`{ success: false, message: "Task not found" }` when the well-formed id
matches no task, and in both cases the collection is left unchanged. -/
theorem update_delete_missing_id (db : List Task) (id : String) (b : TaskBody) (now : Nat)
    (hid : isValidObjectId id = true) (hv : validateUpdateBody b = true)
    (hfind : findTask db id = none) :
    putHandler db id b now =
      ({ status := 404, success := false, message := some "Task not found", data := none }, db) ∧
    deleteHandler db id =
      ({ status := 404, success := false, message := some "Task not found", data := none }, db) := by
  constructor <;> simp [putHandler, deleteHandler, hid, hv, hfind]

/-- Witness for C3 at a concrete well-formed id, a valid (empty) update body
and the empty collection. -/
theorem update_delete_missing_id_witness :
    putHandler [] "cafebabe0123456789abcdef" {} 0 =
      ({ status := 404, success := false, message := some "Task not found", data := none }, []) ∧
    deleteHandler [] "cafebabe0123456789abcdef" =
      ({ status := 404, success := false, message := some "Task not found", data := none }, []) :=
  update_delete_missing_id [] "cafebabe0123456789abcdef" {} 0 (by decide) (by decide) rfl

/-- C4: `GET /api/tasks/:id` responds 200 `{ success: true, data }` when a
task matches the well-formed id, 404 `{ success: false, message: "Task not
found" }` when none does, and a 400 malformed-input response, distinct from
the not-found response, when the id is not a well-formed key. -/
theorem get_by_id_cases (db : List Task) (id : String) :
    (isValidObjectId id = false →
      getByIdHandler db id =
        { status := 400, success := false, message := some "Invalid task ID", data := none }) ∧
    (isValidObjectId id = true → findTask db id = none →
      getByIdHandler db id =
        { status := 404, success := false, message := some "Task not found", data := none }) ∧
    (∀ t, isValidObjectId id = true → findTask db id = some t →
      getByIdHandler db id =
        { status := 200, success := true, message := none, data := some t }) ∧
    ({ status := 400, success := false, message := some "Invalid task ID", data := none
        : TaskResponse } ≠
      { status := 404, success := false, message := some "Task not found", data := none }) := by
  refine ⟨fun h => by simp [getByIdHandler, h], fun h h2 => by simp [getByIdHandler, h, h2],
    fun t h h2 => by simp [getByIdHandler, h, h2], by decide⟩

/-- Witness for C4 exercising all three branches at concrete inputs. -/
theorem get_by_id_cases_witness :
    getByIdHandler [] "zz" =
      { status := 400, success := false, message := some "Invalid task ID", data := none } ∧
    getByIdHandler [] "aaaaaaaaaaaa" =
      { status := 404, success := false, message := some "Task not found", data := none } ∧
    getByIdHandler [demoTask] "aaaaaaaaaaaa" =
      { status := 200, success := true, message := none, data := some demoTask } :=
  ⟨(get_by_id_cases [] "zz").1 (by decide),
   (get_by_id_cases [] "aaaaaaaaaaaa").2.1 (by decide) rfl,
   (get_by_id_cases [demoTask] "aaaaaaaaaaaa").2.2.1 demoTask (by decide) (by decide)⟩

/-- C5: a create request that omits the optional fields stores a task whose
`completed` is `false`, whose `priority` is `medium`, and whose `description`
is the schema's placeholder default value. -/
theorem create_applies_defaults (b : TaskBody) (id : String) (now : Nat) (t : Task)
    (hd : b.description = none) (hc : b.completed = none) (hp : b.priority = none)
    (ht : applyCreate b id now = some t) :
    t.completed = false ∧ t.priority = Priority.medium ∧ t.description = "default value" := by
  cases htitle : checkRequiredTitle b.title with
  | none => simp [applyCreate, htitle] at ht
  | some s =>
      simp [applyCreate, htitle, hd, hc, hp, Option.elim] at ht
      subst ht
      exact ⟨rfl, rfl, rfl⟩

/-- Witness for C5: `POST { title: "Buy milk" }` stores `demoTask`, whose
fields are the defaults. -/
theorem create_applies_defaults_witness :
    demoTask.completed = false ∧ demoTask.priority = Priority.medium ∧
      demoTask.description = "default value" :=
  create_applies_defaults { title := some "Buy milk" } "aaaaaaaaaaaa" 0 demoTask
    rfl rfl rfl (by decide)

/-- C1: a create request whose title is absent, empty, or whitespace-only is
rejected by the server with a 400 `success: false` validation response and
nothing is persisted; and on the client such a title fails `validateForm`, so
`handleSubmit` returns before any create call is issued. -/
theorem blank_title_create_rejected (db : List Task) (b : TaskBody) (id : String) (now : Nat)
    (fd : FormData) (isEditing apiOk : Bool)
    (hb : ∀ s, b.title = some s → jsTrim s = "")
    (hf : jsTrim fd.title = "") :
    (postHandler db b id now).1.status = 400 ∧
    (postHandler db b id now).1.success = false ∧
    (postHandler db b id now).2 = db ∧
    validateForm fd = false ∧
    (handleSubmitApp fd isEditing apiOk).action = none := by
  have h1 : checkRequiredTitle b.title = none := by
    cases hbt : b.title with
    | none => rfl
    | some s => simp [checkRequiredTitle, hb s hbt]
  have h2 : applyCreate b id now = none := by
    simp [applyCreate, h1]
  have h3 : validateForm fd = false := by
    simp [validateForm, titleError, hf]
  refine ⟨?_, ?_, ?_, h3, ?_⟩ <;>
    simp [postHandler, h2, handleSubmitApp, handleSubmitForm, h3]

/-- Witness for C1 at a whitespace-only request title and a whitespace-only
form title. -/
theorem blank_title_create_rejected_witness :
    (postHandler [] { title := some "   " } "aaaaaaaaaaaa" 0).1.status = 400 ∧
    (postHandler [] { title := some "   " } "aaaaaaaaaaaa" 0).1.success = false ∧
    (postHandler [] { title := some "   " } "aaaaaaaaaaaa" 0).2 = [] ∧
    validateForm { title := " ", description := "", priority := .medium } = false ∧
    (handleSubmitApp { title := " ", description := "", priority := .medium } false true).action
      = none :=
  blank_title_create_rejected [] { title := some "   " } "aaaaaaaaaaaa" 0
    { title := " ", description := "", priority := .medium } false true
    (fun s hs => by cases hs; decide) (by decide)

/-- C6 counterexample: the claim says the fields are reset "exactly when a
creation succeeds", but `handleCreateTask` in `App.js` catches API errors
without rethrowing, so its promise resolves even when the create API call
fails and the form resets anyway.  Concretely: a valid create-mode submission
whose API call fails (`apiOk = false`) still ends with the form reset to the
empty initial state. -/
theorem form_reset_despite_failed_create :
    handleCreateTaskRejects false = false ∧
    (handleSubmitApp { title := "Buy milk", description := "note", priority := .high }
        false false).formAfter = emptyForm ∧
    ({ title := "Buy milk", description := "note", priority := .high } : FormData) ≠ emptyForm := by
  decide

/-- C6 as amended: on every submission passing validation the title and
description are trimmed and the create or update action is invoked according
to the mode; the form preserves its content on update; and in create mode the
fields are reset whenever the submit handler's promise resolves—which is
every validated create submission, even one whose API call fails, because the
container swallows API errors. -/
theorem submit_trims_routes_and_resets (fd : FormData) (isEditing apiOk : Bool)
    (hv : validateForm fd = true) :
    handleSubmitApp fd isEditing apiOk =
      { action := some (if isEditing then SubmitAction.updateCalled (trimForm fd)
                        else SubmitAction.createCalled (trimForm fd)),
        formAfter := if isEditing then fd else emptyForm } := by
  cases isEditing <;>
    simp [handleSubmitApp, handleSubmitForm, handleCreateTaskRejects, handleUpdateTaskRejects, hv]

/-- Witness for the amended C6 at a concrete valid form in both modes. -/
theorem submit_trims_routes_and_resets_witness :
    handleSubmitApp { title := " Buy milk ", description := " note ", priority := .high }
        false false =
      { action := some (.createCalled { title := "Buy milk", description := "note",
                                        priority := .high }),
        formAfter := emptyForm } ∧
    handleSubmitApp { title := " Buy milk ", description := " note ", priority := .high }
        true true =
      { action := some (.updateCalled { title := "Buy milk", description := "note",
                                        priority := .high }),
        formAfter := { title := " Buy milk ", description := " note ", priority := .high } } :=
  ⟨by
    have h := submit_trims_routes_and_resets
      { title := " Buy milk ", description := " note ", priority := .high } false false (by decide)
    simpa using h,
   by
    have h := submit_trims_routes_and_resets
      { title := " Buy milk ", description := " note ", priority := .high } true true (by decide)
    simpa using h⟩

/-- C8: the completion percentage is 0 for an empty task list and
`Math.round(completed / total * 100)` otherwise; in particular it is 33 for
3 tasks of which 1 is completed. -/
theorem completion_percentage_rounding (l : List Task) :
    (totalTasks l = 0 → completionPercentage l = 0) ∧
    (totalTasks l ≠ 0 →
      completionPercentage l = jsRound ((completedTasks l : ℚ) / (totalTasks l : ℚ) * 100)) ∧
    (totalTasks l = 3 → completedTasks l = 1 → completionPercentage l = 33) := by
  refine ⟨fun h => by simp [completionPercentage, h],
          fun h => by simp [completionPercentage, h], fun h3 h1 => ?_⟩
  have h30 : totalTasks l ≠ 0 := by omega
  rw [completionPercentage, if_neg h30, h3, h1, jsRound]
  norm_num

/-- Witness for C8: the three sample tasks, one of them completed, show a 33%
completion percentage. -/
theorem completion_percentage_rounding_witness :
    completionPercentage demoTasks3 = 33 :=
  (completion_percentage_rounding demoTasks3).2.2 (by decide) (by decide)

/-- C9: the `active` and `completed` filters partition the task list: no task
is in both results, each result preserves the underlying order (it is a
sublist of the input), and together they contain exactly the input's tasks. -/
theorem active_completed_partition (l : List Task) :
    (∀ t, t ∈ filterTasks .active l → t ∉ filterTasks .completed l) ∧
    List.Perm (filterTasks .active l ++ filterTasks .completed l) l ∧
    (filterTasks .active l).Sublist l ∧
    (filterTasks .completed l).Sublist l := by
  refine ⟨fun t hta htc => ?_, ?_, List.filter_sublist l, List.filter_sublist l⟩
  · rw [filterTasks, List.mem_filter] at hta htc
    simp [filterPred] at hta htc
    rw [hta.2] at htc
    exact Bool.false_ne_true htc.2
  · have h := List.filter_append_perm (fun t => t.completed) l
    refine List.Perm.trans (List.perm_append_comm.trans ?_) h
    apply List.Perm.append
    · exact List.Perm.refl _
    · rw [filterTasks]
      apply List.Perm.of_eq
      apply List.filter_congr
      intro t _
      simp [filterPred]

/-- Witness for C9: the active sample task is not in the completed filter
result of the sample list. -/
theorem active_completed_partition_witness :
    demoTask ∉ filterTasks .completed demoTasks3 :=
  (active_completed_partition demoTasks3).1 demoTask (by decide)

/-- C10: for every successful response body, the interceptor returns the
envelope's `data` field when it is truthy and the whole body otherwise; in
particular a body without a truthy `data` field yields the full envelope and
the interceptor never returns `undefined` on an object body. -/
theorem interceptor_unwraps_data_or_body (fields : List (String × JSVal)) :
    (truthy (getProp (.jsObj fields) "data") = true →
      responseData (.jsObj fields) = getProp (.jsObj fields) "data") ∧
    (truthy (getProp (.jsObj fields) "data") = false →
      responseData (.jsObj fields) = .jsObj fields) ∧
    responseData (.jsObj fields) ≠ .jsUndefined := by
  refine ⟨fun h => by simp [responseData, h], fun h => by simp [responseData, h], ?_⟩
  cases h : truthy (getProp (.jsObj fields) "data") with
  | false =>
      rw [responseData, if_neg (by simp [h])]
      intro hEq
      cases hEq
  | true =>
      rw [responseData, if_pos (by simp [h])]
      intro hEq
      rw [hEq] at h
      simp [truthy] at h

/-- Witness for C10: an envelope with no `data` field is returned whole, and
one with a truthy `data` field is unwrapped. -/
theorem interceptor_unwraps_data_or_body_witness :
    responseData (.jsObj [("success", .jsBool true), ("message", .jsStr "ok")]) =
      .jsObj [("success", .jsBool true), ("message", .jsStr "ok")] ∧
    responseData (.jsObj [("success", .jsBool true), ("data", .jsStr "x")]) = .jsStr "x" :=
  ⟨(interceptor_unwraps_data_or_body [("success", .jsBool true), ("message", .jsStr "ok")]).2.1
      rfl,
   (interceptor_unwraps_data_or_body [("success", .jsBool true), ("data", .jsStr "x")]).1 rfl⟩

/-- Inserting an element that satisfies `f` and sorts before-or-ties every
`f`-element of the list puts it at the head of the `f`-filtered result: the
key stability property of `orderedInsert`. -/
theorem filter_orderedInsert_head {α : Type} (r : α → α → Prop) [DecidableRel r] (f : α → Bool)
    (x : α) (hx : f x = true) (l : List α) :
    (∀ y ∈ l, f y = true → r x y) →
      (List.orderedInsert r x l).filter f = x :: l.filter f := by
  induction l with
  | nil => intro _; simp [hx]
  | cons y ys ih =>
      intro h
      by_cases hr : r x y
      · simp [List.orderedInsert, hr, hx]
      · have hy : f y = false := by
          cases hfy : f y with
          | true => exact absurd (h y (by simp) hfy) hr
          | false => rfl
        simp [List.orderedInsert, hr, hy, ih fun z hz hfz => h z (by simp [hz]) hfz]

/-- Inserting an element that fails `f` leaves the `f`-filtered result
unchanged. -/
theorem filter_orderedInsert_skip {α : Type} (r : α → α → Prop) [DecidableRel r] (f : α → Bool)
    (x : α) (hx : f x = false) (l : List α) :
    (List.orderedInsert r x l).filter f = l.filter f := by
  induction l with
  | nil => simp [hx]
  | cons y ys ih =>
      by_cases hr : r x y
      · simp [List.orderedInsert, hr, hx]
      · simp [List.orderedInsert, hr, List.filter_cons, ih]

/-- Stability of the priority sort: for each priority level, the sorted list
restricted to that level is exactly the input restricted to that level, in
the input's order. -/
theorem filter_insertionSort_priority (p : Priority) (l : List Task) :
    (l.insertionSort priorityFirst).filter (fun t => decide (t.priority = p)) =
      l.filter fun t => decide (t.priority = p) := by
  induction l with
  | nil => rfl
  | cons x xs ih =>
      rw [List.insertionSort]
      by_cases hx : x.priority = p
      · rw [filter_orderedInsert_head priorityFirst _ x (by simp [hx]) _ ?_, ih]
        · simp [hx]
        · intro y hy hfy
          have h2 : y.priority = p := by simpa using hfy
          simp [priorityFirst, hx, h2]
      · rw [filter_orderedInsert_skip priorityFirst _ x (by simp [hx]), ih]
        simp [hx]

/-- C7: sorting with the priority option orders every higher-priority task
before every lower-priority task (the output is pairwise decreasing in
priority rank, so every high precedes every medium and every medium every
low, regardless of input order); tasks of equal priority keep their relative
input order (filtering the output by any one priority level gives exactly the
input filtered to that level); and the output is a permutation of the
input. -/
theorem priority_sort_ordered_and_stable (l : List Task) :
    List.Pairwise (fun a b => pVal b.priority ≤ pVal a.priority)
      (filteredAndSortedTasks .all .priority l) ∧
    (∀ p : Priority,
      (filteredAndSortedTasks .all .priority l).filter (fun t => decide (t.priority = p)) =
        l.filter fun t => decide (t.priority = p)) ∧
    List.Perm (filteredAndSortedTasks .all .priority l) l := by
  have hfl : filterTasks .all l = l :=
    List.filter_eq_self.mpr fun a _ => rfl
  have heq : filteredAndSortedTasks .all .priority l = l.insertionSort priorityFirst := by
    rw [filteredAndSortedTasks, hfl]
  refine ⟨?_, fun p => ?_, ?_⟩
  · rw [heq]
    exact List.sorted_insertionSort priorityFirst l
  · rw [heq]
    exact filter_insertionSort_priority p l
  · rw [heq]
    exact List.perm_insertionSort priorityFirst l

end TaskApp
